import Mathlib

/-!
Shallow embedding of the investment-calculation engine of the
investments-tracker repository (src/src/utils/calculations.js and
src/src/services/notificationService.js), together with theorems settling
the frozen claims about its specification.

Modelling conventions:
* JavaScript numbers in the arithmetic-only code paths are modelled as
  exact rationals (ℚ); values produced by `Math.pow` with non-integral
  exponents are modelled in ℝ using real exponentiation (`Real.rpow`).
* Dates (`new Date(...)`, millisecond timestamps) are modelled as ℚ
  millisecond counts; the wall-clock read `new Date()` is modelled as an
  explicit `now` parameter.
* `x || 0` field defaults are modelled by total record fields defaulting
  to 0; `investment.lastUpdated ? ... : new Date()` is an `Option ℚ`.
* `String.prototype.toLowerCase()` is modelled by `jsToLower` (character
  by character ASCII lower-casing, structurally recursive so that it
  evaluates in proofs).
* A possibly-null / non-array `investments` argument is modelled by the
  `InvestmentsArg` sum type.
-/

/-- ASCII lower-casing of one string, modelling `String.prototype.toLowerCase()`
on the ASCII frequency keywords used by the code. -/
def jsToLower (s : String) : String := String.mk (s.data.map Char.toLower)

/-- Milliseconds in the 30.44-day average month used by the source
(`1000 * 60 * 60 * 24 * 30.44`). -/
def msPerMonth : ℚ := 2630016000

/-- Milliseconds in the 91.25-day quarter used by the source. -/
def msPerQuarter : ℚ := 7884000000

/-- Milliseconds in the 182.5-day half year used by the source. -/
def msPerHalfYear : ℚ := 15768000000

/-- Milliseconds in the 365.25-day year used by the source. -/
def msPerYear : ℚ := 31557600000

/-- `Math.max(0, Math.round((e - s) / (1000*60*60*24*30.44)))` — elapsed
months between two millisecond timestamps, as used throughout the source. -/
def monthsElapsedRound (s e : ℚ) : ℕ := (max 0 (round ((e - s) / msPerMonth))).toNat

/-- `Math.max(0, Math.floor((e - s) / unit))` — elapsed whole periods of
length `unit` milliseconds between two timestamps. -/
def periodsElapsedFloor (s e unit : ℚ) : ℕ := (max 0 ⌊(e - s) / unit⌋).toNat

/-- An investment record.  All JS-number fields are rationals defaulting
to 0 (the `|| 0` pattern of the source); date fields are millisecond
timestamps; string-keyword fields default to `""` (absent). -/
structure Investment where
  id : String := ""
  type : String := ""
  grams : ℚ := 0
  buyPrice : ℚ := 0
  currentPrice : ℚ := 0
  units : ℚ := 0
  issuePrice : ℚ := 0
  balance : ℚ := 0
  principal : ℚ := 0
  monthlyDeposit : ℚ := 0
  buyNav : ℚ := 0
  currentNav : ℚ := 0
  quantity : ℚ := 0
  vestingPrice : ℚ := 0
  shares : ℚ := 0
  purchasePrice : ℚ := 0
  faceValue : ℚ := 0
  premiumAmount : ℚ := 0
  monthlyContribution : ℚ := 0
  interestRate : ℚ := 0
  sumAssured : ℚ := 0
  coverageAmount : ℚ := 0
  bonusRate : ℚ := 0
  finalBonus : ℚ := 0
  maturityAmount : ℚ := 0
  monthlyIncome : ℚ := 0
  investedAmount : ℚ := 0
  currentValue : ℚ := 0
  startDate : ℚ := 0
  maturityDate : ℚ := 0
  purchaseDate : ℚ := 0
  depositDate : ℚ := 0
  lastUpdated : Option ℚ := none
  premiumFrequency : String := ""
  compoundingFrequency : String := ""
  policyType : String := ""

/-- RECURRING_DEPOSIT / POST_OFFICE_RD invested amount: actual deposits
made so far, `monthlyDeposit × monthsElapsed` with the end date clamped to
`min(now, maturityDate)` (calculations.js lines 80‑94). -/
def rdDepositsMade (inv : Investment) (now : ℚ) : ℚ :=
  let rdEndDate := min now inv.maturityDate
  let m := monthsElapsedRound inv.startDate rdEndDate
  inv.monthlyDeposit * m

/-- INSURANCE invested amount: total premiums paid by frequency
(calculations.js lines 120‑157).  Monthly counts use `Math.round`, the
longer frequencies use `Math.floor`, exactly as in the source. -/
def insurancePremiumsPaid (inv : Investment) (now : ℚ) : ℚ :=
  let premium := inv.premiumAmount
  let endDate := min now inv.maturityDate
  let freq := jsToLower (if inv.premiumFrequency = "" then "monthly" else inv.premiumFrequency)
  if freq = "monthly" then premium * monthsElapsedRound inv.startDate endDate
  else if freq = "quarterly" then premium * periodsElapsedFloor inv.startDate endDate msPerQuarter
  else if freq = "half-yearly" ∨ freq = "halfyearly" then
    premium * periodsElapsedFloor inv.startDate endDate msPerHalfYear
  else if freq = "yearly" ∨ freq = "annually" then
    premium * periodsElapsedFloor inv.startDate endDate msPerYear
  else premium * monthsElapsedRound inv.startDate endDate

/-- `getInvestedAmount` of calculations.js (lines 62‑178): invested amount
for a single investment, dispatching on the `type` string. -/
def getInvestedAmount (inv : Investment) (usdToInrRate now : ℚ) : ℚ :=
  if inv.type = "PHYSICAL_GOLD" then inv.grams * inv.buyPrice
  else if inv.type = "SGB" then inv.units * inv.issuePrice
  else if inv.type = "EPF" ∨ inv.type = "PPF" ∨ inv.type = "NPS" then inv.balance
  else if inv.type = "FIXED_DEPOSIT" then inv.principal
  else if inv.type = "RECURRING_DEPOSIT" ∨ inv.type = "POST_OFFICE_RD" then rdDepositsMade inv now
  else if inv.type = "MUTUAL_FUND" then inv.units * inv.buyNav
  else if inv.type = "STOCKS" then inv.quantity * inv.buyPrice
  else if inv.type = "US_STOCKS" then inv.quantity * inv.buyPrice * usdToInrRate
  else if inv.type = "RSU" then inv.units * inv.vestingPrice * usdToInrRate
  else if inv.type = "ESPP" then inv.shares * inv.purchasePrice * usdToInrRate
  else if inv.type = "REAL_ESTATE" then inv.purchasePrice
  else if inv.type = "CRYPTOCURRENCY" then inv.quantity * inv.buyPrice * usdToInrRate
  else if inv.type = "BONDS" then inv.faceValue
  else if inv.type = "INSURANCE" then insurancePremiumsPaid inv now
  else if inv.type = "POST_OFFICE_SCSS" ∨ inv.type = "POST_OFFICE_TD" ∨
      inv.type = "POST_OFFICE_KVP" ∨ inv.type = "POST_OFFICE_NSC" ∨
      inv.type = "POST_OFFICE_MSSC" then inv.principal
  else if inv.type = "POST_OFFICE_SAVINGS" then inv.balance
  else if inv.type = "POST_OFFICE_MIS" then inv.principal
  else if inv.type = "OTHER" then inv.investedAmount
  else 0

/-- One pass of the EPF/PPF/NPS month-by-month loop (calculations.js lines
215‑225): each month adds the contribution to the running balance and adds
`runningBalance × monthlyRate` to the separate total-interest accumulator. -/
def epfAccrual (contribution monthlyRate : ℚ) : ℕ → ℚ × ℚ → ℚ × ℚ
  | 0, state => state
  | m + 1, (rb, ti) =>
      epfAccrual contribution monthlyRate m (rb + contribution, ti + (rb + contribution) * monthlyRate)

/-- EPF / PPF / NPS current value (calculations.js lines 195‑228):
month-by-month accrual from `lastUpdated` (or `now` when absent) to `now`,
returning `runningBalance + totalInterest`. -/
def epfCurrentValue (inv : Investment) (now : ℚ) : ℚ :=
  let b := inv.balance
  let contribution := inv.monthlyContribution
  let monthlyRate := inv.interestRate / 12 / 100
  let lastUpdated := inv.lastUpdated.getD now
  let m := monthsElapsedRound lastUpdated now
  if m = 0 then b
  else
    let s := epfAccrual contribution monthlyRate m (b, 0)
    s.1 + s.2

/-- The compounding-frequency switch shared verbatim by the FIXED_DEPOSIT,
POST_OFFICE_MSSC and POST_OFFICE_TD branches: periods per year `n`. -/
def compoundingPeriodsPerYear (freq : String) : ℚ :=
  if freq = "monthly" then 12
  else if freq = "quarterly" then 4
  else if freq = "halfyearly" ∨ freq = "half-yearly" ∨ freq = "semi-annually" then 2
  else if freq = "yearly" ∨ freq = "annually" then 1
  else 4

/-- FIXED_DEPOSIT current value (calculations.js lines 230‑275): simple or
compound interest over `max 0` elapsed years up to `min(now, maturityDate)`. -/
noncomputable def fdValue (inv : Investment) (now : ℚ) : ℝ :=
  let p := inv.principal
  let r := inv.interestRate
  let endDate := min now inv.maturityDate
  let t := max 0 ((endDate - inv.startDate) / msPerYear)
  let freq := jsToLower (if inv.compoundingFrequency = "" then "quarterly" else inv.compoundingFrequency)
  if freq = "simple" ∨ freq = "simple interest" then ((p + p * r * t / 100 : ℚ) : ℝ)
  else
    let n := compoundingPeriodsPerYear freq
    (p : ℝ) * (1 + (r : ℝ) / (100 * (n : ℝ))) ^ (((n * t : ℚ) : ℝ))

/-- RECURRING_DEPOSIT / POST_OFFICE_RD current value (calculations.js lines
277‑361, two verbatim-identical branches): post-office RD annuity formula
with quarterly compounding. -/
noncomputable def rdValue (inv : Investment) (now : ℚ) : ℝ :=
  let monthly := inv.monthlyDeposit
  let endDate := min now inv.maturityDate
  let m := monthsElapsedRound inv.startDate endDate
  if m = 0 then 0
  else
    let totalDeposits := monthly * m
    let annualRate := inv.interestRate / 100
    let quarterlyRate := annualRate / 4
    let quarters : ℚ := (m : ℚ) / 3
    if quarterlyRate = 0 then (totalDeposits : ℝ)
    else
      (monthly : ℝ) *
        (((1 + (quarterlyRate : ℝ)) ^ ((quarters : ℚ) : ℝ) - 1) /
          (1 - (1 + (quarterlyRate : ℝ)) ^ (-(1 / 3) : ℝ)))

/-- INSURANCE current value (calculations.js lines 387‑418): endowment /
moneyback policies accrue a yearly bonus on `sumAssured` using the
UNCLAMPED `now` for `yearsCompleted`, plus `finalBonus` once
`now ≥ maturityDate`; other policies are valued flat at `coverageAmount`. -/
def insuranceValue (inv : Investment) (now : ℚ) : ℚ :=
  let policyType := jsToLower (if inv.policyType = "" then "term" else inv.policyType)
  if policyType = "endowment" ∨ policyType = "moneyback" then
    let sumAssured := if inv.sumAssured = 0 then inv.coverageAmount else inv.sumAssured
    let yearsCompleted : ℤ := ⌊(now - inv.startDate) / msPerYear⌋
    let accumulatedBonus := inv.bonusRate * (sumAssured / 1000) * (yearsCompleted : ℚ)
    let cv := sumAssured + accumulatedBonus
    if inv.maturityDate ≤ now then cv + inv.finalBonus else cv
  else inv.coverageAmount

/-- POST_OFFICE_SCSS current value (calculations.js lines 420‑436): simple
interest on the principal over clamped elapsed years. -/
def scssValue (inv : Investment) (now : ℚ) : ℚ :=
  let p := inv.principal
  let endDate := min now inv.maturityDate
  let t := max 0 ((endDate - inv.startDate) / msPerYear)
  p + p * (inv.interestRate / 100) * t

/-- POST_OFFICE_MIS current value (calculations.js lines 441‑457):
principal plus monthly income received over clamped elapsed months. -/
def misValue (inv : Investment) (now : ℚ) : ℚ :=
  let endDate := min now inv.maturityDate
  let m := monthsElapsedRound inv.startDate endDate
  inv.principal + inv.monthlyIncome * m

/-- POST_OFFICE_KVP current value (calculations.js lines 459‑475): annual
compounding `P × (1 + r)^t` over clamped elapsed years from the purchase
date. -/
noncomputable def kvpValue (inv : Investment) (now : ℚ) : ℝ :=
  let p := inv.principal
  let r := inv.interestRate / 100
  let endDate := min now inv.maturityDate
  let t := max 0 ((endDate - inv.purchaseDate) / msPerYear)
  (p : ℝ) * (1 + (r : ℝ)) ^ ((t : ℚ) : ℝ)

/-- POST_OFFICE_MSSC current value (calculations.js lines 480‑516):
compound interest from the deposit date with configurable frequency. -/
noncomputable def msscValue (inv : Investment) (now : ℚ) : ℝ :=
  let p := inv.principal
  let r := inv.interestRate / 100
  let endDate := min now inv.maturityDate
  let t := max 0 ((endDate - inv.depositDate) / msPerYear)
  let n := compoundingPeriodsPerYear
    (jsToLower (if inv.compoundingFrequency = "" then "quarterly" else inv.compoundingFrequency))
  (p : ℝ) * (1 + (r : ℝ) / (n : ℝ)) ^ (((n * t : ℚ) : ℝ))

/-- POST_OFFICE_TD current value (calculations.js lines 518‑554): compound
interest from the start date with configurable frequency. -/
noncomputable def tdValue (inv : Investment) (now : ℚ) : ℝ :=
  let p := inv.principal
  let r := inv.interestRate / 100
  let endDate := min now inv.maturityDate
  let t := max 0 ((endDate - inv.startDate) / msPerYear)
  let n := compoundingPeriodsPerYear
    (jsToLower (if inv.compoundingFrequency = "" then "quarterly" else inv.compoundingFrequency))
  (p : ℝ) * (1 + (r : ℝ) / (n : ℝ)) ^ (((n * t : ℚ) : ℝ))

/-- `getCurrentValue` of calculations.js (lines 185‑562): current value of
a single investment, dispatching on the `type` string in source order. -/
noncomputable def getCurrentValue (inv : Investment) (usdToInrRate now : ℚ) : ℝ :=
  if inv.type = "PHYSICAL_GOLD" then ((inv.grams * inv.currentPrice : ℚ) : ℝ)
  else if inv.type = "SGB" then ((inv.units * inv.currentPrice : ℚ) : ℝ)
  else if inv.type = "EPF" ∨ inv.type = "PPF" ∨ inv.type = "NPS" then ((epfCurrentValue inv now : ℚ) : ℝ)
  else if inv.type = "FIXED_DEPOSIT" then fdValue inv now
  else if inv.type = "RECURRING_DEPOSIT" then rdValue inv now
  else if inv.type = "POST_OFFICE_RD" then rdValue inv now
  else if inv.type = "MUTUAL_FUND" then ((inv.units * inv.currentNav : ℚ) : ℝ)
  else if inv.type = "STOCKS" then ((inv.quantity * inv.currentPrice : ℚ) : ℝ)
  else if inv.type = "US_STOCKS" then ((inv.quantity * inv.currentPrice * usdToInrRate : ℚ) : ℝ)
  else if inv.type = "RSU" then ((inv.units * inv.currentPrice * usdToInrRate : ℚ) : ℝ)
  else if inv.type = "ESPP" then ((inv.shares * inv.currentPrice * usdToInrRate : ℚ) : ℝ)
  else if inv.type = "REAL_ESTATE" then ((inv.currentValue : ℚ) : ℝ)
  else if inv.type = "CRYPTOCURRENCY" then ((inv.quantity * inv.currentPrice * usdToInrRate : ℚ) : ℝ)
  else if inv.type = "BONDS" then ((inv.currentValue : ℚ) : ℝ)
  else if inv.type = "INSURANCE" then ((insuranceValue inv now : ℚ) : ℝ)
  else if inv.type = "POST_OFFICE_SCSS" then ((scssValue inv now : ℚ) : ℝ)
  else if inv.type = "POST_OFFICE_SAVINGS" then ((inv.balance : ℚ) : ℝ)
  else if inv.type = "POST_OFFICE_MIS" then ((misValue inv now : ℚ) : ℝ)
  else if inv.type = "POST_OFFICE_KVP" then kvpValue inv now
  else if inv.type = "POST_OFFICE_NSC" then ((inv.maturityAmount : ℚ) : ℝ)
  else if inv.type = "POST_OFFICE_MSSC" then msscValue inv now
  else if inv.type = "POST_OFFICE_TD" then tdValue inv now
  else if inv.type = "OTHER" then ((inv.currentValue : ℚ) : ℝ)
  else 0

/-- `getReturns` of calculations.js (lines 569‑573): current value minus
invested amount. -/
noncomputable def getReturns (inv : Investment) (usdToInrRate now : ℚ) : ℝ :=
  getCurrentValue inv usdToInrRate now - ((getInvestedAmount inv usdToInrRate now : ℚ) : ℝ)

/-- `getReturnsPercentage` of calculations.js (lines 580‑586): 0 when the
invested amount is 0, else `returns / invested × 100`. -/
noncomputable def getReturnsPercentage (inv : Investment) (usdToInrRate now : ℚ) : ℝ :=
  let invested := getInvestedAmount inv usdToInrRate now
  if invested = 0 then 0
  else getReturns inv usdToInrRate now / ((invested : ℚ) : ℝ) * 100

/-- The `investments` argument of the aggregate functions: a JS value that
is either an actual array, `null`/`undefined`, or some non-array value. -/
inductive InvestmentsArg where
  | arr (l : List Investment)
  | nullish
  | nonArrayValue

/-- The `reduce` fold of `calculateTotalInvested` over an actual array. -/
def calculateTotalInvestedList (l : List Investment) (usdToInrRate now : ℚ) : ℚ :=
  l.foldl (fun total inv => total + getInvestedAmount inv usdToInrRate now) 0

/-- `calculateTotalInvested` of calculations.js (lines 8‑15), including the
`!investments || !Array.isArray(investments)` guard returning 0. -/
def calculateTotalInvested : InvestmentsArg → ℚ → ℚ → ℚ
  | .arr l, usdToInrRate, now => calculateTotalInvestedList l usdToInrRate now
  | _, _, _ => 0

/-- The `reduce` fold of `calculateTotalCurrentValue` over an actual array. -/
noncomputable def calculateTotalCurrentValueList (l : List Investment) (usdToInrRate now : ℚ) : ℝ :=
  l.foldl (fun total inv => total + getCurrentValue inv usdToInrRate now) 0

/-- `calculateTotalCurrentValue` of calculations.js (lines 22‑29), including
the non-array guard returning 0. -/
noncomputable def calculateTotalCurrentValue : InvestmentsArg → ℚ → ℚ → ℝ
  | .arr l, usdToInrRate, now => calculateTotalCurrentValueList l usdToInrRate now
  | _, _, _ => 0

/-- `calculateTotalReturns` of calculations.js (lines 36‑42): total current
value minus total invested, with the non-array guard returning 0. -/
noncomputable def calculateTotalReturns (a : InvestmentsArg) (usdToInrRate now : ℚ) : ℝ :=
  match a with
  | .arr l =>
      calculateTotalCurrentValue (.arr l) usdToInrRate now -
        ((calculateTotalInvested (.arr l) usdToInrRate now : ℚ) : ℝ)
  | _ => 0

/-- `calculateReturnsPercentage` of calculations.js (lines 49‑55): 0 when
total invested is 0, else `totalReturns / totalInvested × 100`. -/
noncomputable def calculateReturnsPercentage (a : InvestmentsArg) (usdToInrRate now : ℚ) : ℝ :=
  let invested := calculateTotalInvested a usdToInrRate now
  if invested = 0 then 0
  else calculateTotalReturns a usdToInrRate now / ((invested : ℚ) : ℝ) * 100

/-- Appending a key to a JS object's key list in first-insertion order. -/
def insertTypeKey (ks : List String) (k : String) : List String :=
  if k ∈ ks then ks else ks ++ [k]

/-- The type keys of `groupInvestmentsByType`, in JS object insertion
order (first occurrence first). -/
def typeKeys (l : List Investment) : List String :=
  l.foldl (fun ks inv => insertTypeKey ks inv.type) []

/-- `groupInvestmentsByType` of calculations.js (lines 628‑639), modelled
as the `Object.entries` view: type keys in insertion order, each paired
with the sub-list of investments of that type (in original order). -/
def groupInvestmentsByType (l : List Investment) : List (String × List Investment) :=
  (typeKeys l).map (fun t => (t, l.filter (fun inv => inv.type == t)))

/-- One entry of the portfolio-allocation result. -/
structure AllocationEntry where
  type : String
  value : ℝ
  percentage : ℝ
  count : ℕ

/-- `calculatePortfolioAllocation` of calculations.js (lines 646‑663):
empty on a non-array or when the total current value is 0; otherwise one
entry per type group with `percentage = typeValue / totalValue × 100`,
sorted descending by value. -/
noncomputable def calculatePortfolioAllocation (a : InvestmentsArg) (usdToInrRate now : ℚ) :
    List AllocationEntry :=
  match a with
  | .arr l =>
      let totalValue := calculateTotalCurrentValueList l usdToInrRate now
      if totalValue = 0 then []
      else
        let entries := (groupInvestmentsByType l).map (fun g =>
          let typeValue := calculateTotalCurrentValueList g.2 usdToInrRate now
          AllocationEntry.mk g.1 typeValue (typeValue / totalValue * 100) g.2.length)
        List.insertionSort (fun x y => y.value ≤ x.value) entries
  | _ => []

/-- One scored item of `getPerformanceHighlights`. -/
structure PerfItem where
  investment : Investment
  invested : ℚ
  current : ℝ
  returns : ℝ
  returnsPercentage : ℝ

/-- Result of `getPerformanceHighlights`. -/
structure PerfHighlights where
  topPerformers : List PerfItem
  bottomPerformers : List PerfItem

/-- `getPerformanceHighlights` of notificationService.js (lines 462‑511):
score every investment, drop those with invested ≤ 0, sort descending by
returns percentage; if fewer than 4 remain only the top 3 are reported,
otherwise top 3 (`slice(0, 3)`) and the last 3 reversed (`slice(-3).reverse()`). -/
noncomputable def getPerformanceHighlights (a : InvestmentsArg) (usdToInrRate now : ℚ) :
    PerfHighlights :=
  match a with
  | .arr investments =>
      if investments.length = 0 then ⟨[], []⟩
      else
        let withReturns := (investments.map (fun inv =>
          PerfItem.mk inv (getInvestedAmount inv usdToInrRate now)
            (getCurrentValue inv usdToInrRate now) (getReturns inv usdToInrRate now)
            (getReturnsPercentage inv usdToInrRate now))).filter
          (fun item => 0 < item.invested)
        if withReturns.length = 0 then ⟨[], []⟩
        else
          let sorted := List.insertionSort
            (fun x y => y.returnsPercentage ≤ x.returnsPercentage) withReturns
          if sorted.length < 4 then ⟨sorted.take 3, []⟩
          else ⟨sorted.take 3, (sorted.drop (sorted.length - 3)).reverse⟩
  | _ => ⟨[], []⟩

/-- Modelled from the spec: the claimed KVP/NSC valuation rule — linear
interpolation between `principal` at the purchase date and
`maturityAmount` at the maturity date, proportional to elapsed time,
clamped to `principal` before the start and to `maturityAmount` at or
after maturity (spec §4.2, "Post-office KVP/NSC").  This definition follows
the spec's words and exists to be compared with the source-derived
`getCurrentValue`. -/
def specLinearInterpolatedValue (principal maturityAmount s e t : ℚ) : ℚ :=
  if t ≤ s then principal
  else if e ≤ t then maturityAmount
  else principal + (maturityAmount - principal) * ((t - s) / (e - s))

/-- The closed set of `type` discriminators handled by the switch
statements of `getInvestedAmount` and `getCurrentValue`. -/
def knownInvestmentTypes : List String :=
  ["PHYSICAL_GOLD", "SGB", "EPF", "PPF", "NPS", "FIXED_DEPOSIT", "RECURRING_DEPOSIT",
   "POST_OFFICE_RD", "MUTUAL_FUND", "STOCKS", "US_STOCKS", "RSU", "ESPP", "REAL_ESTATE",
   "CRYPTOCURRENCY", "BONDS", "INSURANCE", "POST_OFFICE_SCSS", "POST_OFFICE_TD",
   "POST_OFFICE_KVP", "POST_OFFICE_NSC", "POST_OFFICE_MSSC", "POST_OFFICE_SAVINGS",
   "POST_OFFICE_MIS", "OTHER"]

/-- An `OTHER` record with nothing invested, used as a concrete sample. -/
def sampleZeroInvested : Investment := { type := "OTHER", investedAmount := 0, currentValue := 7 }

/-- An `OTHER` record with a positive invested amount, used as a concrete
sample. -/
def samplePosInvested : Investment := { type := "OTHER", investedAmount := 50, currentValue := 60 }

/-- C1: for every investment record and every evaluation instant, the
per-instrument returns value equals current value minus invested amount,
so `currentValue = investedAmount + returns` holds exactly, for any
instrument and any exchange rate. -/
theorem C1_currentValue_eq_invested_add_returns (inv : Investment) (usdToInrRate now : ℚ) :
    getReturns inv usdToInrRate now =
      getCurrentValue inv usdToInrRate now -
        ((getInvestedAmount inv usdToInrRate now : ℚ) : ℝ) ∧
    getCurrentValue inv usdToInrRate now =
      ((getInvestedAmount inv usdToInrRate now : ℚ) : ℝ) + getReturns inv usdToInrRate now := by
  refine ⟨rfl, ?_⟩
  unfold getReturns
  ring

/-- C8: both returns-percentage functions return 0 when the invested
amount is 0 (never a division by zero), and `returns / invested × 100`
otherwise — at the single-instrument level (`getReturnsPercentage`) and at
the portfolio level (`calculateReturnsPercentage`). -/
theorem C8_returns_percentage_division_guard (inv : Investment) (a : InvestmentsArg)
    (usdToInrRate now : ℚ) :
    (getInvestedAmount inv usdToInrRate now = 0 →
      getReturnsPercentage inv usdToInrRate now = 0) ∧
    (getInvestedAmount inv usdToInrRate now ≠ 0 →
      getReturnsPercentage inv usdToInrRate now =
        getReturns inv usdToInrRate now /
          ((getInvestedAmount inv usdToInrRate now : ℚ) : ℝ) * 100) ∧
    (calculateTotalInvested a usdToInrRate now = 0 →
      calculateReturnsPercentage a usdToInrRate now = 0) ∧
    (calculateTotalInvested a usdToInrRate now ≠ 0 →
      calculateReturnsPercentage a usdToInrRate now =
        calculateTotalReturns a usdToInrRate now /
          ((calculateTotalInvested a usdToInrRate now : ℚ) : ℝ) * 100) := by
  refine ⟨fun h => ?_, fun h => ?_, fun h => ?_, fun h => ?_⟩ <;>
    simp [getReturnsPercentage, calculateReturnsPercentage, h]

/-- C8 witness: the guard and the formula evaluated at concrete records. -/
theorem C8_returns_percentage_division_guard_witness :
    getReturnsPercentage sampleZeroInvested 83 0 = 0 ∧
    getReturnsPercentage samplePosInvested 83 0 =
      getReturns samplePosInvested 83 0 /
        ((getInvestedAmount samplePosInvested 83 0 : ℚ) : ℝ) * 100 ∧
    calculateReturnsPercentage .nullish 83 0 = 0 ∧
    calculateReturnsPercentage (.arr [samplePosInvested]) 83 0 =
      calculateTotalReturns (.arr [samplePosInvested]) 83 0 /
        ((calculateTotalInvested (.arr [samplePosInvested]) 83 0 : ℚ) : ℝ) * 100 := by
  have h0 : getInvestedAmount sampleZeroInvested 83 0 = 0 := by
    simp [getInvestedAmount, sampleZeroInvested]
  have h1 : getInvestedAmount samplePosInvested 83 0 ≠ 0 := by
    simp [getInvestedAmount, samplePosInvested]
  have h2 : calculateTotalInvested .nullish 83 0 = 0 := rfl
  have h3 : calculateTotalInvested (.arr [samplePosInvested]) 83 0 ≠ 0 := by
    simp [calculateTotalInvested, calculateTotalInvestedList, getInvestedAmount, samplePosInvested]
  exact ⟨(C8_returns_percentage_division_guard sampleZeroInvested .nullish 83 0).1 h0,
    (C8_returns_percentage_division_guard samplePosInvested .nullish 83 0).2.1 h1,
    (C8_returns_percentage_division_guard sampleZeroInvested .nullish 83 0).2.2.1 h2,
    (C8_returns_percentage_division_guard sampleZeroInvested (.arr [samplePosInvested]) 83 0).2.2.2 h3⟩

/-- C9: a record whose `type` is none of the known variants is valued as a
zero-value instrument by every per-instrument function (both switch
statements fall through to their `default: return 0`), and no exception is
possible — the functions are total. -/
theorem C9_unknown_type_is_zero_valued (inv : Investment) (usdToInrRate now : ℚ)
    (h : inv.type ∉ knownInvestmentTypes) :
    getInvestedAmount inv usdToInrRate now = 0 ∧
    getCurrentValue inv usdToInrRate now = 0 ∧
    getReturns inv usdToInrRate now = 0 ∧
    getReturnsPercentage inv usdToInrRate now = 0 := by
  simp only [knownInvestmentTypes, List.mem_cons, List.not_mem_nil, or_false, not_or] at h
  have hinv : getInvestedAmount inv usdToInrRate now = 0 := by
    simp [getInvestedAmount, h]
  have hcur : getCurrentValue inv usdToInrRate now = 0 := by
    simp [getCurrentValue, h]
  refine ⟨hinv, hcur, ?_, ?_⟩
  · simp [getReturns, hinv, hcur]
  · simp [getReturnsPercentage, hinv]

/-- C9 witness: a concrete record with an unknown `type` string. -/
theorem C9_unknown_type_is_zero_valued_witness :
    ({ type := "LOTTERY_TICKETS", currentValue := 9 } : Investment).type ∉ knownInvestmentTypes ∧
    getInvestedAmount { type := "LOTTERY_TICKETS", currentValue := 9 } 83 0 = 0 ∧
    getCurrentValue { type := "LOTTERY_TICKETS", currentValue := 9 } 83 0 = 0 ∧
    getReturns { type := "LOTTERY_TICKETS", currentValue := 9 } 83 0 = 0 ∧
    getReturnsPercentage { type := "LOTTERY_TICKETS", currentValue := 9 } 83 0 = 0 := by
  have h : ({ type := "LOTTERY_TICKETS", currentValue := 9 } : Investment).type ∉
      knownInvestmentTypes := by decide
  exact ⟨h, C9_unknown_type_is_zero_valued { type := "LOTTERY_TICKETS", currentValue := 9 } 83 0 h⟩

/-- C10: when the `investments` argument is null, undefined, or not an
array, the aggregate functions return 0 and `calculatePortfolioAllocation`
returns the empty list — the aggregation interface is total over malformed
collection inputs. -/
theorem C10_aggregates_total_on_non_arrays (a : InvestmentsArg) (usdToInrRate now : ℚ)
    (h : ∀ l, a ≠ .arr l) :
    calculateTotalInvested a usdToInrRate now = 0 ∧
    calculateTotalCurrentValue a usdToInrRate now = 0 ∧
    calculateTotalReturns a usdToInrRate now = 0 ∧
    calculatePortfolioAllocation a usdToInrRate now = [] := by
  cases a with
  | arr l => exact absurd rfl (h l)
  | nullish => exact ⟨rfl, rfl, rfl, rfl⟩
  | nonArrayValue => exact ⟨rfl, rfl, rfl, rfl⟩

/-- C10 witness: the null/undefined argument. -/
theorem C10_aggregates_total_on_non_arrays_witness :
    calculateTotalInvested .nullish 83 0 = 0 ∧
    calculateTotalCurrentValue .nullish 83 0 = 0 ∧
    calculateTotalReturns .nullish 83 0 = 0 ∧
    calculatePortfolioAllocation .nullish 83 0 = [] :=
  C10_aggregates_total_on_non_arrays .nullish 83 0 (fun _ h => InvestmentsArg.noConfusion h)

/-- With zero monthly contribution the EPF loop leaves the running balance
unchanged and accumulates exactly `m × balance × monthlyRate` of interest:
the interest is never added back to the running balance, so no
compounding occurs. -/
lemma epfAccrual_zero_contribution (r : ℚ) (m : ℕ) : ∀ b ti : ℚ,
    epfAccrual 0 r m (b, ti) = (b, ti + m * (b * r)) := by
  induction m with
  | zero => intro b ti; simp [epfAccrual]
  | succ n ih =>
      intro b ti
      rw [epfAccrual, ih]
      push_cast
      refine Prod.ext (by ring) ?_
      simp only
      ring

/-- A concrete EPF account: balance 1000, 12% annual rate, no monthly
contribution, last updated at epoch 0. -/
def sampleEpf : Investment :=
  { type := "EPF", balance := 1000, interestRate := 12, monthlyContribution := 0,
    lastUpdated := some 0 }

/-- Exactly two average months (2 × 2630016000 ms) after epoch 0. -/
def epfNow : ℚ := 5260032000

/-- Two months elapse between epoch 0 and `epfNow`. -/
lemma epfNow_months : monthsElapsedRound 0 epfNow = 2 := by
  have h : round ((epfNow - 0) / msPerMonth) = 2 := by
    rw [round_eq, Int.floor_eq_iff]
    norm_num [epfNow, msPerMonth]
  unfold monthsElapsedRound
  rw [h]
  rfl

/-- The EPF branch evaluates to 1020 on `sampleEpf` after two months:
1000 plus two months of simple interest at 1% per month. -/
lemma sampleEpf_value : epfCurrentValue sampleEpf epfNow = 1020 := by
  have hm : monthsElapsedRound ((sampleEpf.lastUpdated).getD epfNow) epfNow = 2 := by
    simpa [sampleEpf] using epfNow_months
  simp only [epfCurrentValue, hm]
  norm_num [sampleEpf, epfAccrual]

/-- C3 counterexample: for the EPF record `sampleEpf` (zero contribution,
balance 1000, annual rate 12) evaluated two elapsed months after its last
update, the code returns 1020, not the claimed monthly compound value
`1000 × (1 + 12/1200)² = 1020.1`. -/
theorem C3_counterexample_epf_not_compound :
    monthsElapsedRound ((sampleEpf.lastUpdated).getD epfNow) epfNow = 2 ∧
    sampleEpf.monthlyContribution = 0 ∧
    getCurrentValue sampleEpf 83 epfNow ≠
      ((sampleEpf.balance : ℚ) : ℝ) *
        (1 + ((sampleEpf.interestRate : ℚ) : ℝ) / 1200) ^ (2 : ℕ) := by
  have hm : monthsElapsedRound ((sampleEpf.lastUpdated).getD epfNow) epfNow = 2 := by
    simpa [sampleEpf] using epfNow_months
  refine ⟨hm, rfl, ?_⟩
  have hv : getCurrentValue sampleEpf 83 epfNow = ((1020 : ℚ) : ℝ) := by
    have htype : sampleEpf.type = "EPF" := rfl
    simp [getCurrentValue, htype, sampleEpf_value]
  rw [hv]
  show ((1020 : ℚ) : ℝ) ≠ ((1000 : ℚ) : ℝ) * (1 + ((12 : ℚ) : ℝ) / 1200) ^ (2 : ℕ)
  norm_num

/-- C3 amended: for every EPF/PPF/NPS instrument with zero monthly
contribution, the month-by-month accrual loop returns SIMPLE monthly
interest `balance × (1 + m × rate/1200)` over the `m` elapsed months (the
loop accumulates interest in a separate variable and never compounds it),
not the compound value `balance × (1 + rate/1200)^m` claimed by the spec. -/
theorem C3_amended_epf_zero_contribution_simple_interest (inv : Investment)
    (usdToInrRate now : ℚ)
    (ht : inv.type = "EPF" ∨ inv.type = "PPF" ∨ inv.type = "NPS")
    (hc : inv.monthlyContribution = 0) :
    getCurrentValue inv usdToInrRate now =
      ((inv.balance *
        (1 + (monthsElapsedRound (inv.lastUpdated.getD now) now : ℚ) *
          inv.interestRate / 1200) : ℚ) : ℝ) := by
  have hval : epfCurrentValue inv now =
      inv.balance * (1 + (monthsElapsedRound (inv.lastUpdated.getD now) now : ℚ) *
        inv.interestRate / 1200) := by
    simp only [epfCurrentValue, hc]
    by_cases h0 : monthsElapsedRound (inv.lastUpdated.getD now) now = 0
    · rw [if_pos h0, h0]
      push_cast
      ring
    · rw [if_neg h0, epfAccrual_zero_contribution]
      ring
  rcases ht with h | h | h <;> simp [getCurrentValue, h, hval]

/-- C3 amended witness: the amended formula instantiated on `sampleEpf`
two months after its last update. -/
theorem C3_amended_epf_zero_contribution_simple_interest_witness :
    (sampleEpf.type = "EPF" ∨ sampleEpf.type = "PPF" ∨ sampleEpf.type = "NPS") ∧
    sampleEpf.monthlyContribution = 0 ∧
    getCurrentValue sampleEpf 83 epfNow =
      ((sampleEpf.balance *
        (1 + (monthsElapsedRound (sampleEpf.lastUpdated.getD epfNow) epfNow : ℚ) *
          sampleEpf.interestRate / 1200) : ℚ) : ℝ) :=
  ⟨Or.inl rfl, rfl,
    C3_amended_epf_zero_contribution_simple_interest sampleEpf 83 epfNow (Or.inl rfl) rfl⟩

/-- A concrete NSC certificate: principal 100, maturity amount 200, bought
at epoch 0, maturing two years later. -/
def sampleNsc : Investment :=
  { type := "POST_OFFICE_NSC", principal := 100, maturityAmount := 200,
    purchaseDate := 0, maturityDate := 63115200000 }

/-- A concrete KVP certificate: principal 5000, 7% rate, bought one year
after epoch 0, maturing two years after epoch 0. -/
def sampleKvp : Investment :=
  { type := "POST_OFFICE_KVP", principal := 5000, interestRate := 7,
    purchaseDate := 31557600000, maturityDate := 63115200000 }

/-- C4 counterexample: at its own purchase instant the NSC certificate
`sampleNsc` is valued by the code at its `maturityAmount` 200, while the
claimed clamped linear interpolation values it at its `principal` 100. -/
theorem C4_counterexample_nsc_not_interpolated :
    specLinearInterpolatedValue sampleNsc.principal sampleNsc.maturityAmount
      sampleNsc.purchaseDate sampleNsc.maturityDate 0 = 100 ∧
    getCurrentValue sampleNsc 83 0 = ((200 : ℚ) : ℝ) ∧
    getCurrentValue sampleNsc 83 0 ≠
      ((specLinearInterpolatedValue sampleNsc.principal sampleNsc.maturityAmount
        sampleNsc.purchaseDate sampleNsc.maturityDate 0 : ℚ) : ℝ) := by
  have h1 : specLinearInterpolatedValue sampleNsc.principal sampleNsc.maturityAmount
      sampleNsc.purchaseDate sampleNsc.maturityDate 0 = 100 := by
    norm_num [specLinearInterpolatedValue, sampleNsc]
  have h2 : getCurrentValue sampleNsc 83 0 = ((200 : ℚ) : ℝ) := by
    have htype : sampleNsc.type = "POST_OFFICE_NSC" := rfl
    simp [getCurrentValue, htype]
    norm_num [sampleNsc]
  refine ⟨h1, h2, ?_⟩
  rw [h1, h2]
  norm_num

/-- C4 amended: the code does not interpolate linearly.  An NSC is always
valued flat at its `maturityAmount`; a KVP is valued by annual compounding
`P × (1 + r/100)^t` over clamped elapsed years, which does clamp in time:
before the purchase date the value is the principal, and from the maturity
date on the value stays frozen at its maturity-date value. -/
theorem C4_amended_nsc_flat_kvp_compounds (inv : Investment) (usdToInrRate now : ℚ) :
    (inv.type = "POST_OFFICE_NSC" →
      getCurrentValue inv usdToInrRate now = ((inv.maturityAmount : ℚ) : ℝ)) ∧
    (inv.type = "POST_OFFICE_KVP" → now ≤ inv.purchaseDate →
      getCurrentValue inv usdToInrRate now = ((inv.principal : ℚ) : ℝ)) ∧
    (inv.type = "POST_OFFICE_KVP" → inv.maturityDate ≤ now →
      getCurrentValue inv usdToInrRate now =
        getCurrentValue inv usdToInrRate inv.maturityDate) := by
  refine ⟨fun h => ?_, fun h hle => ?_, fun h hge => ?_⟩
  · simp [getCurrentValue, h]
  · have h1 : min now inv.maturityDate - inv.purchaseDate ≤ 0 :=
      sub_nonpos.2 (le_trans (min_le_left _ _) hle)
    have ht : max 0 ((min now inv.maturityDate - inv.purchaseDate) / msPerYear) = 0 := by
      apply max_eq_left
      apply div_nonpos_of_nonpos_of_nonneg h1
      norm_num [msPerYear]
    simp [getCurrentValue, h, kvpValue, ht]
  · have hmin : min now inv.maturityDate = inv.maturityDate := min_eq_right hge
    have hself : min inv.maturityDate inv.maturityDate = inv.maturityDate := min_self _
    simp [getCurrentValue, h, kvpValue, hmin, hself]

/-- C4 amended witness: the three amended statements instantiated on the
concrete certificates `sampleNsc` and `sampleKvp`. -/
theorem C4_amended_nsc_flat_kvp_compounds_witness :
    (0 : ℚ) ≤ sampleKvp.purchaseDate ∧ sampleKvp.maturityDate ≤ (94672800000 : ℚ) ∧
    getCurrentValue sampleNsc 83 0 = ((sampleNsc.maturityAmount : ℚ) : ℝ) ∧
    getCurrentValue sampleKvp 83 0 = ((sampleKvp.principal : ℚ) : ℝ) ∧
    getCurrentValue sampleKvp 83 94672800000 =
      getCurrentValue sampleKvp 83 sampleKvp.maturityDate := by
  have hp : (0 : ℚ) ≤ sampleKvp.purchaseDate := by norm_num [sampleKvp]
  have hm : sampleKvp.maturityDate ≤ (94672800000 : ℚ) := by norm_num [sampleKvp]
  exact ⟨hp, hm, (C4_amended_nsc_flat_kvp_compounds sampleNsc 83 0).1 rfl,
    (C4_amended_nsc_flat_kvp_compounds sampleKvp 83 0).2.1 rfl hp,
    (C4_amended_nsc_flat_kvp_compounds sampleKvp 83 94672800000).2.2 rfl hm⟩

/-- The date-based `type` discriminators whose current-value branches read
the evaluation instant only through `min(now, maturityDate)`. -/
def clampedMaturityTypes : List String :=
  ["FIXED_DEPOSIT", "RECURRING_DEPOSIT", "POST_OFFICE_RD", "POST_OFFICE_SCSS",
   "POST_OFFICE_MIS", "POST_OFFICE_KVP", "POST_OFFICE_NSC", "POST_OFFICE_MSSC",
   "POST_OFFICE_TD"]

/-- A concrete endowment insurance policy: sum assured 100000, bonus rate
50 per mille per year, no final bonus, start at epoch 0, maturing two
years later. -/
def sampleEndowment : Investment :=
  { type := "INSURANCE", policyType := "endowment", sumAssured := 100000,
    bonusRate := 50, finalBonus := 0, startDate := 0, maturityDate := 63115200000 }

/-- Three 365.25-day years after epoch 0 (one year past `sampleEndowment`
maturity). -/
def endowmentLateNow : ℚ := 94672800000

/-- C6 counterexample: the INSURANCE endowment branch keeps accruing
yearly bonus after maturity — one year past maturity `sampleEndowment` is
valued at 115000, while at its maturity date it is valued at 110000, so
the value of this matured instrument still changes as `now` advances. -/
theorem C6_counterexample_endowment_accrues_after_maturity :
    sampleEndowment.maturityDate ≤ endowmentLateNow ∧
    getCurrentValue sampleEndowment 83 endowmentLateNow ≠
      getCurrentValue sampleEndowment 83 sampleEndowment.maturityDate := by
  have hpt : jsToLower
      (if sampleEndowment.policyType = "" then "term" else sampleEndowment.policyType) =
      "endowment" := rfl
  have hf3 : (⌊(94672800000 : ℚ) / msPerYear⌋ : ℤ) = 3 := by
    rw [Int.floor_eq_iff]
    norm_num [msPerYear]
  have hf2 : (⌊(63115200000 : ℚ) / msPerYear⌋ : ℤ) = 2 := by
    rw [Int.floor_eq_iff]
    norm_num [msPerYear]
  have hv1 : insuranceValue sampleEndowment endowmentLateNow = 115000 := by
    simp only [insuranceValue, hpt]
    norm_num [sampleEndowment, hf3, endowmentLateNow]
  have hv2 : insuranceValue sampleEndowment sampleEndowment.maturityDate = 110000 := by
    simp only [insuranceValue, hpt]
    norm_num [sampleEndowment, hf2]
  have htype : sampleEndowment.type = "INSURANCE" := rfl
  refine ⟨by norm_num [sampleEndowment, endowmentLateNow], ?_⟩
  simp [getCurrentValue, htype, hv1, hv2]

/-- C6 amended: the maturity clamp holds for the deposit and post-office
branches (fixed deposit, recurring deposit, post-office RD/SCSS/MIS/KVP/
NSC/MSSC/TD): for those types the current value at any instant at or after
the maturity date equals the value at the maturity date; it does NOT hold
for the INSURANCE endowment branch, whose bonus years are computed from
the unclamped `now` (see the counterexample). -/
theorem C6_amended_matured_values_freeze (inv : Investment) (usdToInrRate now : ℚ)
    (ht : inv.type ∈ clampedMaturityTypes) (h : inv.maturityDate ≤ now) :
    getCurrentValue inv usdToInrRate now = getCurrentValue inv usdToInrRate inv.maturityDate := by
  have hmin : min now inv.maturityDate = inv.maturityDate := min_eq_right h
  have hself : min inv.maturityDate inv.maturityDate = inv.maturityDate := min_self _
  simp only [clampedMaturityTypes, List.mem_cons, List.not_mem_nil, or_false] at ht
  rcases ht with h1 | h1 | h1 | h1 | h1 | h1 | h1 | h1 | h1 <;>
    simp [getCurrentValue, h1, fdValue, rdValue, scssValue, misValue, kvpValue,
      msscValue, tdValue, hmin, hself]

/-- C6 amended witness: a matured fixed deposit evaluated well after its
maturity date is still valued exactly at its maturity-date value. -/
theorem C6_amended_matured_values_freeze_witness :
    ({ type := "FIXED_DEPOSIT", principal := 100000, interestRate := 7,
       startDate := 1672531200000, maturityDate := 1704067200000,
       compoundingFrequency := "quarterly" } : Investment).type ∈ clampedMaturityTypes ∧
    ({ type := "FIXED_DEPOSIT", principal := 100000, interestRate := 7,
       startDate := 1672531200000, maturityDate := 1704067200000,
       compoundingFrequency := "quarterly" } : Investment).maturityDate ≤ (1800000000000 : ℚ) ∧
    getCurrentValue
      { type := "FIXED_DEPOSIT", principal := 100000, interestRate := 7,
        startDate := 1672531200000, maturityDate := 1704067200000,
        compoundingFrequency := "quarterly" } 83 1800000000000 =
    getCurrentValue
      { type := "FIXED_DEPOSIT", principal := 100000, interestRate := 7,
        startDate := 1672531200000, maturityDate := 1704067200000,
        compoundingFrequency := "quarterly" } 83
      ({ type := "FIXED_DEPOSIT", principal := 100000, interestRate := 7,
         startDate := 1672531200000, maturityDate := 1704067200000,
         compoundingFrequency := "quarterly" } : Investment).maturityDate := by
  refine ⟨by decide, by norm_num, ?_⟩
  exact C6_amended_matured_values_freeze _ 83 1800000000000 (by decide) (by norm_num)

/-- The spec's fixed-deposit scenario: principal 100000, 7% rate,
quarterly compounding, start 2023-01-01 (epoch ms 1672531200000),
maturity 2024-01-01 (epoch ms 1704067200000). -/
def sampleFd : Investment :=
  { type := "FIXED_DEPOSIT", principal := 100000, interestRate := 7,
    startDate := 1672531200000, maturityDate := 1704067200000,
    compoundingFrequency := "quarterly" }

/-- Evaluating the scenario deposit at its maturity instant: the elapsed
time is 365 days = 365/365.25 years, so the code computes
`100000 × (1 + 7/400)^(4 × 1460/1461) = 100000 × 1.0175^(5840/1461)`. -/
lemma sampleFd_value : getCurrentValue sampleFd 83 1704067200000 =
    100000 * (1 + 7 / 400 : ℝ) ^ ((5840 / 1461 : ℝ)) := by
  have htype : sampleFd.type = "FIXED_DEPOSIT" := rfl
  have hfreq : jsToLower (if sampleFd.compoundingFrequency = "" then "quarterly"
      else sampleFd.compoundingFrequency) = "quarterly" := rfl
  have hn : compoundingPeriodsPerYear "quarterly" = 4 := rfl
  have hend : min (1704067200000 : ℚ) sampleFd.maturityDate = 1704067200000 := by
    norm_num [sampleFd]
  have hq : (min (1704067200000 : ℚ) sampleFd.maturityDate - sampleFd.startDate) / msPerYear
      = 1460 / 1461 := by
    rw [hend]
    norm_num [sampleFd, msPerYear]
  have ht : max 0 ((min (1704067200000 : ℚ) sampleFd.maturityDate - sampleFd.startDate) / msPerYear)
      = 1460 / 1461 := by
    rw [hq]
    exact max_eq_right (by norm_num)
  have hbranch : getCurrentValue sampleFd 83 1704067200000 = fdValue sampleFd 1704067200000 := by
    simp [getCurrentValue, htype]
  rw [hbranch]
  simp only [fdValue, hfreq, ht, hn]
  have hcond : ¬(("quarterly" = "simple") ∨ ("quarterly" = "simple interest")) := by simp
  rw [if_neg hcond]
  have hexp : (((4 : ℚ) * (1460 / 1461) : ℚ) : ℝ) = (5840 / 1461 : ℝ) := by
    push_cast
    norm_num
  rw [hexp]
  norm_num [sampleFd]

/-- C7 counterexample: the claimed value 107,230.59 is off by more than 44
rupees — the code's value is at most `100000 × 1.0175⁴ ≈ 107185.90`, so it
is not within any floating-rounding tolerance (here: within 1) of the
claimed 107,230.59. -/
theorem C7_counterexample_fd_scenario_value_wrong :
    ¬ |getCurrentValue sampleFd 83 1704067200000 - 107230.59| ≤ 1 := by
  have hb : (1 : ℝ) < 1 + 7 / 400 := by norm_num
  have hle : (1 + 7 / 400 : ℝ) ^ ((5840 / 1461 : ℝ)) ≤ (1 + 7 / 400 : ℝ) ^ (((4 : ℕ)) : ℝ) := by
    apply (Real.rpow_le_rpow_left_iff hb).mpr
    norm_num
  have h4 : (1 + 7 / 400 : ℝ) ^ (((4 : ℕ)) : ℝ) = 27439591201 / 25600000000 := by
    rw [Real.rpow_natCast]
    norm_num
  have hub : getCurrentValue sampleFd 83 1704067200000 ≤ 107186 := by
    rw [sampleFd_value]
    rw [h4] at hle
    linarith
  rw [not_le]
  have h2 : (107230.59 : ℝ) - getCurrentValue sampleFd 83 1704067200000 ≤
      |getCurrentValue sampleFd 83 1704067200000 - 107230.59| := by
    rw [abs_sub_comm]
    exact le_abs_self _
  linarith

/-- C7 amended: at `now` = 2024-01-01 the scenario deposit's current value
is exactly `100000 × (1 + 0.07/4)^(4 × 365/365.25)`, which lies between
107,180 and 107,185.91 (about 107,180.9, not the claimed ≈107,230.59), and
the returns are that value minus the invested 100,000. -/
theorem C7_amended_fd_scenario_actual_value :
    getCurrentValue sampleFd 83 1704067200000 =
      100000 * (1 + 7 / 400 : ℝ) ^ ((5840 / 1461 : ℝ)) ∧
    getCurrentValue sampleFd 83 1704067200000 ≤ 107185.91 ∧
    (107180 : ℝ) ≤ getCurrentValue sampleFd 83 1704067200000 ∧
    getReturns sampleFd 83 1704067200000 =
      getCurrentValue sampleFd 83 1704067200000 - 100000 := by
  have hb : (1 : ℝ) < 1 + 7 / 400 := by norm_num
  have hb0 : (0 : ℝ) < 1 + 7 / 400 := by norm_num
  have h4 : (1 + 7 / 400 : ℝ) ^ (((4 : ℕ)) : ℝ) = 27439591201 / 25600000000 := by
    rw [Real.rpow_natCast]
    norm_num
  refine ⟨sampleFd_value, ?_, ?_, ?_⟩
  · have hle : (1 + 7 / 400 : ℝ) ^ ((5840 / 1461 : ℝ)) ≤ (1 + 7 / 400 : ℝ) ^ (((4 : ℕ)) : ℝ) := by
      apply (Real.rpow_le_rpow_left_iff hb).mpr
      norm_num
    rw [sampleFd_value]
    rw [h4] at hle
    linarith
  · have hsplit : (1 + 7 / 400 : ℝ) ^ ((5840 / 1461 : ℝ)) =
        (1 + 7 / 400 : ℝ) ^ (((4 : ℕ)) : ℝ) * (1 + 7 / 400 : ℝ) ^ ((-(4 / 1461)) : ℝ) := by
      rw [← Real.rpow_add hb0]
      norm_num
    have hlog_le : Real.log (1 + 7 / 400) ≤ 7 / 400 := by
      have h := Real.log_le_sub_one_of_pos hb0
      linarith
    have hlog_nn : (0 : ℝ) ≤ Real.log (1 + 7 / 400) := Real.log_nonneg (by norm_num)
    have hneg : (1 - 4 / 1461 * (7 / 400) : ℝ) ≤ (1 + 7 / 400 : ℝ) ^ ((-(4 / 1461)) : ℝ) := by
      rw [Real.rpow_def_of_pos hb0]
      have hexp := Real.add_one_le_exp (Real.log (1 + 7 / 400) * (-(4 / 1461)))
      nlinarith [hlog_le, hlog_nn, hexp]
    rw [sampleFd_value, hsplit, h4]
    nlinarith [hneg]
  · have hinv : getInvestedAmount sampleFd 83 1704067200000 = 100000 := by
      have htype : sampleFd.type = "FIXED_DEPOSIT" := rfl
      simp [getInvestedAmount, htype, sampleFd]
    simp [getReturns, hinv]

/-- The `reduce`-style fold of the aggregate functions is the list sum. -/
lemma foldl_add_eq_sum (f : Investment → ℝ) (l : List Investment) : ∀ a : ℝ,
    l.foldl (fun t inv => t + f inv) a = a + (l.map f).sum := by
  induction l with
  | nil => intro a; simp
  | cons x xs ih => intro a; simp [ih, add_assoc]

/-- `calculateTotalCurrentValue` over an array is the sum of the
per-instrument current values. -/
lemma calcTotalCurrentValueList_eq_sum (l : List Investment) (usdToInrRate now : ℚ) :
    calculateTotalCurrentValueList l usdToInrRate now =
      (l.map (fun inv => getCurrentValue inv usdToInrRate now)).sum := by
  unfold calculateTotalCurrentValueList
  rw [foldl_add_eq_sum]
  ring

/-- Splitting a mapped sum along a boolean predicate. -/
lemma sum_map_filter_split (f : Investment → ℝ) (p : Investment → Bool) (l : List Investment) :
    ((l.filter p).map f).sum + ((l.filter (fun x => !(p x))).map f).sum = (l.map f).sum := by
  induction l with
  | nil => simp
  | cons x xs ih =>
      cases hp : p x
      · simp [List.filter_cons, hp]
        linarith [ih]
      · simp [List.filter_cons, hp]
        linarith [ih]

/-- Summing the per-type fiber sums over any duplicate-free list of keys
covering all the types present recovers the total sum. -/
lemma sum_fibers (f : Investment → ℝ) : ∀ ts : List String, ts.Nodup →
    ∀ l : List Investment, (∀ x ∈ l, x.type ∈ ts) →
      (ts.map (fun t => ((l.filter (fun i => i.type == t)).map f).sum)).sum = (l.map f).sum := by
  intro ts
  induction ts with
  | nil =>
      intro _ l hall
      cases l with
      | nil => simp
      | cons x xs => exact absurd (hall x (List.mem_cons_self x xs)) (List.not_mem_nil _)
  | cons t ts ih =>
      intro hnd l hall
      rw [List.nodup_cons] at hnd
      have hfib : ∀ t' ∈ ts, (l.filter (fun i => i.type == t')) =
          ((l.filter (fun x => !(x.type == t))).filter (fun i => i.type == t')) := by
        intro t' ht'
        rw [List.filter_filter]
        apply List.filter_congr
        intro x _
        cases hxt : (x.type == t') with
        | false => simp [hxt]
        | true =>
            have hx : x.type = t' := by simpa using hxt
            have hne : ¬(x.type == t) = true := by
              simp only [beq_iff_eq, hx]
              intro hh
              exact hnd.1 (hh ▸ ht')
            simp [hxt, hne]
      have hmap : (ts.map (fun t' => ((l.filter (fun i => i.type == t')).map f).sum)) =
          (ts.map (fun t' =>
            (((l.filter (fun x => !(x.type == t))).filter (fun i => i.type == t')).map f).sum)) := by
        apply List.map_congr_left
        intro t' ht'
        rw [hfib t' ht']
      have hall2 : ∀ x ∈ l.filter (fun x => !(x.type == t)), x.type ∈ ts := by
        intro x hx
        rw [List.mem_filter] at hx
        rcases List.mem_cons.mp (hall x hx.1) with h | h
        · exfalso
          have : (x.type == t) = true := by simp [h]
          simp [this] at hx
        · exact h
      rw [List.map_cons, List.sum_cons, hmap, ih hnd.2 _ hall2,
        ← sum_map_filter_split f (fun i => i.type == t) l]

/-- Distributing `/ T * 100` out of a mapped sum. -/
lemma sum_map_div_mul (g : String → ℝ) (T : ℝ) (ts : List String) :
    (ts.map (fun t => g t / T * 100)).sum = (ts.map g).sum / T * 100 := by
  induction ts with
  | nil => simp
  | cons t ts ih =>
      simp only [List.map_cons, List.sum_cons, ih]
      ring

/-- Inserting a key keeps a key list duplicate-free. -/
lemma insertTypeKey_nodup {ks : List String} {k : String} (h : ks.Nodup) :
    (insertTypeKey ks k).Nodup := by
  unfold insertTypeKey
  split
  · exact h
  · rename_i hk
    simp [List.nodup_append, h, hk]

/-- The key being inserted is a member afterwards. -/
lemma mem_insertTypeKey_self (ks : List String) (k : String) : k ∈ insertTypeKey ks k := by
  unfold insertTypeKey
  split
  · assumption
  · simp

/-- Inserting a key preserves existing members. -/
lemma mem_insertTypeKey_of_mem {ks : List String} {a : String} (h : a ∈ ks) (k : String) :
    a ∈ insertTypeKey ks k := by
  unfold insertTypeKey
  split
  · exact h
  · simp [h]

/-- The key-collecting fold preserves existing members. -/
lemma mem_foldl_insertTypeKey (l : List Investment) : ∀ (ks : List String) (a : String), a ∈ ks →
    a ∈ l.foldl (fun ks inv => insertTypeKey ks inv.type) ks := by
  induction l with
  | nil => intro ks a h; simpa using h
  | cons x xs ih => intro ks a h; exact ih _ _ (mem_insertTypeKey_of_mem h _)

/-- The key-collecting fold keeps the key list duplicate-free. -/
lemma nodup_foldl_insertTypeKey (l : List Investment) : ∀ ks : List String, ks.Nodup →
    (l.foldl (fun ks inv => insertTypeKey ks inv.type) ks).Nodup := by
  induction l with
  | nil => intro ks h; simpa using h
  | cons x xs ih => intro ks h; exact ih _ (insertTypeKey_nodup h)

/-- The grouping keys are duplicate-free. -/
lemma typeKeys_nodup (l : List Investment) : (typeKeys l).Nodup :=
  nodup_foldl_insertTypeKey l [] (by simp)

/-- Every investment's type occurs among the grouping keys. -/
lemma mem_typeKeys (l : List Investment) : ∀ x ∈ l, x.type ∈ typeKeys l := by
  have key : ∀ (ks : List String) (x : Investment), x ∈ l →
      x.type ∈ l.foldl (fun ks inv => insertTypeKey ks inv.type) ks := by
    induction l with
    | nil => intro ks x h; cases h
    | cons y ys ih =>
        intro ks x h
        rcases List.mem_cons.mp h with h | h
        · subst h
          exact mem_foldl_insertTypeKey ys _ _ (mem_insertTypeKey_self ks x.type)
        · exact ih _ x h
  intro x hx
  exact key [] x hx

/-- C2: whenever the portfolio's total current value is strictly positive,
the percentages of the allocation entries sum to exactly 100 (the real
model incurs no floating rounding at all); each entry's percentage is its
group value divided by the total times 100; and when the total current
value is 0 the function returns the empty list. -/
theorem C2_allocation_percentages_sum_to_100 (l : List Investment) (usdToInrRate now : ℚ) :
    (0 < calculateTotalCurrentValueList l usdToInrRate now →
      ((calculatePortfolioAllocation (.arr l) usdToInrRate now).map
        (fun e => e.percentage)).sum = 100) ∧
    (∀ e ∈ calculatePortfolioAllocation (.arr l) usdToInrRate now,
      e.percentage = e.value / calculateTotalCurrentValueList l usdToInrRate now * 100) ∧
    (calculateTotalCurrentValueList l usdToInrRate now = 0 →
      calculatePortfolioAllocation (.arr l) usdToInrRate now = []) := by
  refine ⟨fun hpos => ?_, fun e he => ?_, fun h0 => ?_⟩
  · have hne : calculateTotalCurrentValueList l usdToInrRate now ≠ 0 := ne_of_gt hpos
    simp only [calculatePortfolioAllocation]
    rw [if_neg hne]
    have key : ∀ es : List AllocationEntry,
        ((List.insertionSort (fun x y => y.value ≤ x.value) es).map
          (fun e => e.percentage)).sum = (es.map (fun e => e.percentage)).sum := by
      intro es
      exact List.Perm.sum_eq (List.Perm.map _ (List.perm_insertionSort _ _))
    rw [key]
    rw [groupInvestmentsByType, List.map_map, List.map_map]
    simp only [Function.comp_def]
    rw [sum_map_div_mul (fun t =>
      calculateTotalCurrentValueList (l.filter (fun inv => inv.type == t)) usdToInrRate now)]
    have hsum : ((typeKeys l).map (fun t =>
        calculateTotalCurrentValueList (l.filter (fun inv => inv.type == t)) usdToInrRate now)).sum
        = calculateTotalCurrentValueList l usdToInrRate now := by
      have hcong : ((typeKeys l).map (fun t =>
          calculateTotalCurrentValueList (l.filter (fun inv => inv.type == t)) usdToInrRate now))
          = ((typeKeys l).map (fun t => ((l.filter (fun i => i.type == t)).map
              (fun inv => getCurrentValue inv usdToInrRate now)).sum)) := by
        apply List.map_congr_left
        intro t _
        rw [calcTotalCurrentValueList_eq_sum]
      rw [hcong, sum_fibers (fun inv => getCurrentValue inv usdToInrRate now)
        (typeKeys l) (typeKeys_nodup l) l (mem_typeKeys l), calcTotalCurrentValueList_eq_sum]
    rw [hsum, div_self hne]
    norm_num
  · by_cases h0 : calculateTotalCurrentValueList l usdToInrRate now = 0
    · simp only [calculatePortfolioAllocation] at he
      rw [if_pos h0] at he
      exact absurd he (List.not_mem_nil e)
    · simp only [calculatePortfolioAllocation] at he
      rw [if_neg h0, List.mem_insertionSort] at he
      rcases List.mem_map.mp he with ⟨g, _, rfl⟩
      rfl
  · simp only [calculatePortfolioAllocation]
    rw [if_pos h0]

/-- A concrete STOCKS holding used by the allocation witness. -/
def sampleStock : Investment :=
  { id := "s1", type := "STOCKS", quantity := 1, buyPrice := 100, currentPrice := 100 }

/-- C2 witness: a one-stock portfolio has positive total current value and
its allocation percentages sum to 100. -/
theorem C2_allocation_percentages_sum_to_100_witness :
    0 < calculateTotalCurrentValueList [sampleStock] 83 0 ∧
    ((calculatePortfolioAllocation (.arr [sampleStock]) 83 0).map
      (fun e => e.percentage)).sum = 100 := by
  have hpos : 0 < calculateTotalCurrentValueList [sampleStock] 83 0 := by
    have htype : sampleStock.type = "STOCKS" := rfl
    have hcur : getCurrentValue sampleStock 83 0 = ((100 : ℚ) : ℝ) := by
      simp [getCurrentValue, htype]
      norm_num [sampleStock]
    rw [calcTotalCurrentValueList_eq_sum]
    simp [hcur]
  exact ⟨hpos, (C2_allocation_percentages_sum_to_100 [sampleStock] 83 0).1 hpos⟩

/-- A one-share stock holding bought at 100 with the given current price
and identifier, used to build concrete ranker portfolios. -/
def perfStock (sid : String) (price : ℚ) : Investment :=
  { id := sid, type := "STOCKS", quantity := 1, buyPrice := 100, currentPrice := price }

/-- Five eligible instruments with pairwise distinct returns percentages
50%, 40%, 30%, 20%, 10%. -/
def perfPortfolio : List Investment :=
  [perfStock "a" 150, perfStock "b" 140, perfStock "c" 130, perfStock "d" 120,
   perfStock "e" 110]

/-- The scored ranker item built from one `perfStock`. -/
noncomputable def perfScored (sid : String) (p : ℚ) : PerfItem :=
  PerfItem.mk (perfStock sid p) (getInvestedAmount (perfStock sid p) 83 0)
    (getCurrentValue (perfStock sid p) 83 0) (getReturns (perfStock sid p) 83 0)
    (getReturnsPercentage (perfStock sid p) 83 0)

/-- Every `perfStock` has invested amount 100. -/
lemma perfStock_invested (sid : String) (p : ℚ) :
    getInvestedAmount (perfStock sid p) 83 0 = 100 := by
  have htype : (perfStock sid p).type = "STOCKS" := rfl
  simp [getInvestedAmount, htype]
  norm_num [perfStock]

/-- Every `perfStock` is currently worth its current price. -/
lemma perfStock_current (sid : String) (p : ℚ) :
    getCurrentValue (perfStock sid p) 83 0 = ((p : ℚ) : ℝ) := by
  have htype : (perfStock sid p).type = "STOCKS" := rfl
  simp [getCurrentValue, htype]
  norm_num [perfStock]

/-- Every `perfStock` has returns percentage `price - 100`. -/
lemma perfStock_pct (sid : String) (p : ℚ) :
    getReturnsPercentage (perfStock sid p) 83 0 = ((p : ℚ) : ℝ) - 100 := by
  rw [getReturnsPercentage]
  simp only [perfStock_invested]
  rw [if_neg (by norm_num)]
  rw [getReturns, perfStock_current, perfStock_invested]
  push_cast
  field_simp

/-- Full evaluation of the ranker on the five-instrument portfolio: the
sorted order is a, b, c, d, e; the top slice is [a, b, c] and the bottom
slice (`slice(-3).reverse()`) is [e, d, c] — the middle instrument c
appears in BOTH. -/
lemma perfHighlights_eval :
    getPerformanceHighlights (.arr perfPortfolio) 83 0 =
      ⟨[perfScored "a" 150, perfScored "b" 140, perfScored "c" 130],
       [perfScored "e" 110, perfScored "d" 120, perfScored "c" 130]⟩ := by
  have hd : ∀ (sid : String) (p : ℚ), 0 < (perfScored sid p).invested := by
    intro sid p
    show 0 < getInvestedAmount (perfStock sid p) 83 0
    rw [perfStock_invested]
    norm_num
  have hmap : perfPortfolio.map (fun inv =>
      PerfItem.mk inv (getInvestedAmount inv 83 0) (getCurrentValue inv 83 0)
        (getReturns inv 83 0) (getReturnsPercentage inv 83 0)) =
      [perfScored "a" 150, perfScored "b" 140, perfScored "c" 130, perfScored "d" 120,
       perfScored "e" 110] := rfl
  have hfilter : [perfScored "a" 150, perfScored "b" 140, perfScored "c" 130,
      perfScored "d" 120, perfScored "e" 110].filter (fun item => 0 < item.invested) =
      [perfScored "a" 150, perfScored "b" 140, perfScored "c" 130, perfScored "d" 120,
       perfScored "e" 110] := by
    simp [List.filter_cons, hd]
  have hsorted : List.insertionSort
      (fun x y : PerfItem => y.returnsPercentage ≤ x.returnsPercentage)
      [perfScored "a" 150, perfScored "b" 140, perfScored "c" 130, perfScored "d" 120,
       perfScored "e" 110] =
      [perfScored "a" 150, perfScored "b" 140, perfScored "c" 130, perfScored "d" 120,
       perfScored "e" 110] := by
    apply List.Sorted.insertionSort_eq
    have hpct : ∀ (sid : String) (p : ℚ),
        (perfScored sid p).returnsPercentage = ((p : ℚ) : ℝ) - 100 := fun sid p =>
      perfStock_pct sid p
    simp [List.sorted_cons, hpct]
    norm_num
  simp only [getPerformanceHighlights]
  rw [if_neg (by simp [perfPortfolio])]
  rw [hmap, hfilter]
  rw [if_neg (by simp)]
  rw [hsorted]
  rw [if_neg (by simp)]
  rfl

/-- C5: demonstration of the ranker bug at a concrete failing input.  On a
portfolio of exactly 5 eligible instruments (distinct returns percentages)
`topPerformers` carries the identifiers a, b, c and `bottomPerformers` the
identifiers e, d, c: identifier c appears in both, so the two lists are
NOT disjoint — contradicting the claim and the code's own comment ("This
prevents the same investment from appearing in both top and bottom").
With fewer than 4 eligible instruments (here 3) `bottomPerformers` is
empty, as claimed. -/
theorem C5_ranker_overlap_on_five_instruments :
    ((getPerformanceHighlights (.arr perfPortfolio) 83 0).topPerformers.map
      (fun it => it.investment.id)) = ["a", "b", "c"] ∧
    ((getPerformanceHighlights (.arr perfPortfolio) 83 0).bottomPerformers.map
      (fun it => it.investment.id)) = ["e", "d", "c"] ∧
    "c" ∈ ((getPerformanceHighlights (.arr perfPortfolio) 83 0).topPerformers.map
      (fun it => it.investment.id)) ∧
    "c" ∈ ((getPerformanceHighlights (.arr perfPortfolio) 83 0).bottomPerformers.map
      (fun it => it.investment.id)) ∧
    (getPerformanceHighlights
      (.arr [perfStock "a" 150, perfStock "b" 140, perfStock "c" 130]) 83 0).bottomPerformers
      = [] := by
  refine ⟨?_, ?_, ?_, ?_, ?_⟩
  · rw [perfHighlights_eval]
    rfl
  · rw [perfHighlights_eval]
    rfl
  · rw [perfHighlights_eval]
    simp [perfScored, perfStock]
  · rw [perfHighlights_eval]
    simp [perfScored, perfStock]
  · have hd : ∀ (sid : String) (p : ℚ), 0 < (perfScored sid p).invested := by
      intro sid p
      show 0 < getInvestedAmount (perfStock sid p) 83 0
      rw [perfStock_invested]
      norm_num
    have hmap3 : [perfStock "a" 150, perfStock "b" 140, perfStock "c" 130].map (fun inv =>
        PerfItem.mk inv (getInvestedAmount inv 83 0) (getCurrentValue inv 83 0)
          (getReturns inv 83 0) (getReturnsPercentage inv 83 0)) =
        [perfScored "a" 150, perfScored "b" 140, perfScored "c" 130] := rfl
    have hfilter3 : [perfScored "a" 150, perfScored "b" 140, perfScored "c" 130].filter
        (fun item => 0 < item.invested) =
        [perfScored "a" 150, perfScored "b" 140, perfScored "c" 130] := by
      simp [List.filter_cons, hd]
    simp only [getPerformanceHighlights]
    rw [if_neg (by simp)]
    rw [hmap3, hfilter3]
    rw [if_neg (by simp)]
    rw [if_pos (by rw [List.length_insertionSort]; norm_num)]
